import Mathlib

/-!
Verification of the configuration-resolution core of `pset.py` (a layered
configuration engine feeding a document generator).  The Python source is
embedded shallowly: Python dictionaries become association lists (insertion
ordered, as in CPython), Python exceptions become an explicit `PyExn` error
type threaded through `Except`, and the caught internal exception
`ConfigConversionError` keeps its message as a `String`.  Each definition
below names the Python function or statement range it embeds.
-/

/-- Scalar configuration values as parsed from JSON/YAML or the command line:
booleans, null, strings and integers. -/
inductive PyScalar : Type
| bool (b : Bool)
| none
| str (s : String)
| int (n : Int)
deriving DecidableEq, Repr

/-- Raw configuration values: a scalar, a list of scalars, or a string-keyed
mapping of scalars.  This covers every shape the accessors in pset.py consume
(scalars for boolean/string/enum, lists for the list getters, mappings for
`get_enum_enum_map`). -/
inductive PyVal : Type
| scalar (s : PyScalar)
| list (xs : List PyScalar)
| dict (xs : List (String × PyScalar))
deriving DecidableEq, Repr

/-- Python `str()` on a scalar: `str(True) = "True"`, `str(None) = "None"`,
strings pass through, integers print in decimal. -/
def pyScalarStr : PyScalar → String
| PyScalar.bool b => if b then "True" else "False"
| PyScalar.none => "None"
| PyScalar.str s => s
| PyScalar.int n => toString n

/-- Python `repr()` on a scalar (used inside the `str()` of containers);
quote-escaping inside strings is elided. -/
def pyScalarRepr : PyScalar → String
| PyScalar.str s => "'" ++ s ++ "'"
| s => pyScalarStr s

/-- Python `str()` on a raw value; for lists and dicts this is their `repr`. -/
def pyValStr : PyVal → String
| PyVal.scalar s => pyScalarStr s
| PyVal.list xs => "[" ++ String.intercalate ", " (xs.map pyScalarRepr) ++ "]"
| PyVal.dict xs =>
    "\x7b" ++
      String.intercalate ", "
        (xs.map (fun p => "'" ++ p.1 ++ "': " ++ pyScalarRepr p.2)) ++
      "\x7d"

/-- Python exceptions that escape the embedded functions. -/
inductive PyExn : Type
| attributeError
| valueError
| keyError
| typeError
| runtimeError
| assertionError
deriving DecidableEq, Repr

/-- Exception `ConfigConversionError` from pset.py line 61, carrying its
message; it is raised by the coercions and caught inside `Config.get`. -/
abbrev ConfigConversionError := String

/-- ASCII lower-casing of one character, as in Python `str.lower` on ASCII. -/
def pyCharLower (c : Char) : Char :=
  if 'A' ≤ c ∧ c ≤ 'Z' then Char.ofNat (c.toNat + 32) else c

/-- ASCII upper-casing of one character, as in Python `str.upper` on ASCII. -/
def pyCharUpper (c : Char) : Char :=
  if 'a' ≤ c ∧ c ≤ 'z' then Char.ofNat (c.toNat - 32) else c

/-- Python `str.lower` (ASCII fragment). -/
def pyLower (s : String) : String := String.mk (s.toList.map pyCharLower)

/-- Python `str.upper` (ASCII fragment). -/
def pyUpper (s : String) : String := String.mk (s.toList.map pyCharUpper)

/-! ## Command-line argument parsing (`Config.read_command_line_arguments`,
pset.py lines 170-239) -/

/-- Values that `read_command_line_arguments` actually stores into
`self.cl_config`: `None` for an empty run, a single string, or a map.  The
documented list case assigns nothing (the `is_map` branch at lines 214-220 has
no `else`), so no list constructor is ever stored by the code. -/
inductive CLValue : Type
| none
| str (s : String)
| map (xs : List (String × String))
deriving DecidableEq, Repr

/-- The command-line configuration dictionary.  Its keys are `Option String`
because the flush that runs at the first `--flag` stores under the Python key
`None` (line 224 with `key = None`). -/
abbrev CLDict := List (Option String × CLValue)

/-- Python dictionary assignment `d[k] = v`: overwrite in place if the key is
present, otherwise append. -/
def clInsert (k : Option String) (v : CLValue) : CLDict → CLDict
| [] => [(k, v)]
| p :: rest => if p.1 = k then (k, v) :: rest else p :: clInsert k v rest

/-- Python `"=" in value`. -/
def hasEquals (s : String) : Bool := s.toList.contains '='

/-- Python `arg.startswith("--")`. -/
def startsWithDashDash (s : String) : Bool :=
  match s.toList with
  | '-' :: '-' :: _ => true
  | _ => false

/-- Python `arg[2:]`. -/
def dropTwoChars (s : String) : String := String.mk (s.toList.drop 2)

/-- The `is_map` scan of pset.py lines 203-213: `is_map` starts as `None`;
for each value, if `is_map` is a boolean different from `"=" in value` the
code calls `self.warn`, which reads the deleted attribute `warn_fatal`
(removed by the `finally` of `read_user_config` at line 119) and therefore
raises `AttributeError`; otherwise `is_map` becomes `"=" in value`.  The final
`if is_map:` treats a leftover `None` as false. -/
def computeIsMap : Option Bool → List String → Except PyExn Bool
| m, [] => Except.ok (m.getD false)
| m, v :: rest =>
    match m with
    | Option.none => computeIsMap (some (hasEquals v)) rest
    | some b =>
        if b = hasEquals v then computeIsMap (some (hasEquals v)) rest
        else Except.error PyExn.attributeError

/-- The flush executed when a new `--flag` (or the end sentinel) is reached,
pset.py lines 202-224.  For a run of two or more values: an inconsistent run
raises in `computeIsMap`; a consistent all-equals run enters the map branch,
where `re.match(r"^(.*?)=(.*)$", value).groups()[1:3]` slices the two matched
groups down to a one-element tuple, so the two-variable unpacking
`subkey, val = ...` raises `ValueError` on the first value; a consistent
no-equals run falls through the `if is_map:` with no `else` and stores
nothing.  One value stores that string; zero values store `None`. -/
def flushValues (key : Option String) (values : List String) (cl : CLDict) :
    Except PyExn CLDict :=
  if 2 ≤ values.length then
    match computeIsMap Option.none values with
    | Except.error e => Except.error e
    | Except.ok isMap =>
        if isMap then Except.error PyExn.valueError
        else Except.ok cl
  else if values.length = 1 then
    Except.ok (clInsert key (CLValue.str (values.headD "")) cl)
  else
    Except.ok (clInsert key CLValue.none cl)

/-- The main loop of `read_command_line_arguments` over `args + [None]`,
pset.py lines 196-233, with state `key`, `values`, `self.cl_config`.  A string
argument starting with `--` flushes and starts a new key (`arg[2:]`); a string
argument with no current key calls `self.warn`, which raises `AttributeError`
because `warn_fatal` was deleted; any other string argument is accumulated.
When the iteration reaches the appended `None` sentinel, the condition
`arg.startswith("--")` is evaluated before the `arg is None` test, and calling
`startswith` on `None` raises `AttributeError`, so the empty-list case below
is that error.  The key-validation loop at lines 234-239 is unreachable. -/
def runCL (key : Option String) (values : List String) (cl : CLDict) :
    List String → Except PyExn CLDict
| [] => Except.error PyExn.attributeError
| arg :: rest =>
    if startsWithDashDash arg then
      match flushValues key values cl with
      | Except.error e => Except.error e
      | Except.ok cl2 => runCL (some (dropTwoChars arg)) [] cl2 rest
    else
      match key with
      | Option.none => Except.error PyExn.attributeError
      | some _ => runCL key (values ++ [arg]) cl rest

/-- Entry point of `Config.read_command_line_arguments` on the argument list
`sys.argv[1:]`, as invoked last from `Config.__init__` (pset.py line 77). -/
def read_command_line_arguments (args : List String) : Except PyExn CLDict :=
  runCL Option.none [] [] args

/-! ## Unknown-key validation in `Config.load_config_file`
(pset.py lines 151-156) -/

/-- Python membership test `key in self.config_keys` where the tested object
is a raw configuration value and `config_keys` is the string-keyed schema
dictionary: only a string value can equal a string key under Python `==`. -/
def pyValIsSchemaKey (keys : List String) : PyVal → Bool
| PyVal.scalar (PyScalar.str s) => keys.contains s
| _ => false

/-- The validation loop `for key in config.values(): ...` of
`load_config_file`, pset.py lines 151-155.  The loop variable ranges over the
VALUES of the mapping, each value is tested for schema membership, `self.warn`
is called for a failing value (fatal `AssertionError` when `warn_fatal` is
set, as for the default config), and then `del config[key]` deletes using the
VALUE as a dictionary key: a `KeyError` if no entry has that string as its
key (or a `TypeError` for an unhashable list or dict value), and, after a
deletion that does succeed, the live `values()` iterator raises
`RuntimeError` ("dictionary changed size during iteration") at its next
step. -/
def validateValuesLoop (keys : List String) (warnFatal : Bool) :
    List PyVal → List (String × PyVal) → Bool → Nat →
    Except PyExn (List (String × PyVal) × Nat)
| [], config, changed, warns =>
    if changed then Except.error PyExn.runtimeError
    else Except.ok (config, warns)
| v :: rest, config, changed, warns =>
    if changed then Except.error PyExn.runtimeError
    else if pyValIsSchemaKey keys v then
      validateValuesLoop keys warnFatal rest config changed warns
    else if warnFatal then Except.error PyExn.assertionError
    else
      match v with
      | PyVal.scalar (PyScalar.str s) =>
          if config.any (fun p => p.1 = s) then
            validateValuesLoop keys warnFatal rest
              (config.filter (fun p => ¬ (p.1 = s))) true (warns + 1)
          else Except.error PyExn.keyError
      | PyVal.scalar _ => Except.error PyExn.keyError
      | _ => Except.error PyExn.typeError

/-- The unknown-key validation stage of `Config.load_config_file` applied to
a successfully parsed mapping `config`, with the schema `config_keys` and the
strictness flag `warn_fatal` in effect at the call.  Returns the surviving
mapping together with the number of warnings printed, or the escaping
exception. -/
def load_config_validate (config_keys : List String) (warnFatal : Bool)
    (config : List (String × PyVal)) :
    Except PyExn (List (String × PyVal) × Nat) :=
  validateValuesLoop config_keys warnFatal (config.map (fun p => p.2))
    config false 0

/-! ## Typed getters and the layered lookup (`Config.get` and friends,
pset.py lines 241-345) -/

/-- One configuration source's key-to-raw-value mapping. -/
abbrev ConfigMap := List (String × PyVal)

/-- The state `Config.get` reads: `self.cl_config`, `self.user_configs`
ordered from the current directory upward (nearest first), and
`self.default_config`. -/
structure ConfigState : Type where
  cl_config : ConfigMap
  user_configs : List ConfigMap
  default_config : ConfigMap

/-- Python `key in config` / `config[key]` combined: the value stored under
`key`, if any. -/
def lookupKey (key : String) (cfg : ConfigMap) : Option PyVal :=
  (cfg.find? (fun p => p.1 = key)).map Prod.snd

/-- The source walk of `Config.get`, pset.py lines 334-345.  For the first
source containing the key, the coercion is attempted; on success its value is
returned.  On `ConfigConversionError` the handler at lines 340-343 builds the
warning message from `e.message`, an attribute that does not exist on Python 3
exceptions, so an `AttributeError` escapes `get` (the `finally` only deletes
`warn_fatal`).  If no source contains the key the loop ends and the function
returns `None`. -/
def getLoop {α : Type} (key : String)
    (convert : PyVal → Except ConfigConversionError α) :
    List ConfigMap → Except PyExn (Option α)
| [] => Except.ok Option.none
| cfg :: rest =>
    match lookupKey key cfg with
    | Option.none => getLoop key convert rest
    | some v =>
        match convert v with
        | Except.ok r => Except.ok (some r)
        | Except.error _ => Except.error PyExn.attributeError

/-- Method `Config.get(key, convert)`, pset.py lines 327-345, with the source
list built exactly as at lines 328-333: the command-line source first, then
the discovered user configs nearest-first, then the default config. -/
def ConfigState.get {α : Type} (c : ConfigState) (key : String)
    (convert : PyVal → Except ConfigConversionError α) :
    Except PyExn (Option α) :=
  getLoop key convert (c.cl_config :: (c.user_configs ++ [c.default_config]))

/-- The conversion closure of `Config.get_boolean`, pset.py lines 242-251.
Python checks `val in [True, False, None]` with `==`, under which the
integers 1 and 0 equal `True` and `False`; the passthrough then returns the
raw value, which callers truth-test, so those two cases are modelled by the
corresponding boolean.  Otherwise the stringified value is lower-cased and
compared with the truthy words; then, as written in the source, it is
UPPER-cased and compared with the lower-case falsy words (`.upper()` at line
247), before the `ConfigConversionError` at lines 250-251. -/
def get_boolean_convert (val : PyVal) :
    Except ConfigConversionError (Option Bool) :=
  match val with
  | PyVal.scalar (PyScalar.bool b) => Except.ok (some b)
  | PyVal.scalar PyScalar.none => Except.ok Option.none
  | v =>
      if v = PyVal.scalar (PyScalar.int 1) then Except.ok (some true)
      else if v = PyVal.scalar (PyScalar.int 0) then Except.ok (some false)
      else if ["y", "yes", "true", "on", "1"].contains (pyLower (pyValStr v))
        then Except.ok (some true)
      else if ["n", "no", "false", "off", "0"].contains (pyUpper (pyValStr v))
        then Except.ok (some false)
      else Except.error "must be y/n, yes/no, true/false, on/off, or 0/1"

/-- The conversion closure of `Config.get_enum`, pset.py lines 264-270. -/
def get_enum_convert (allowed_values : List String) (val : PyVal) :
    Except ConfigConversionError String :=
  let s := pyValStr val
  if allowed_values.contains s then Except.ok s
  else Except.error ("must be one of: " ++ String.intercalate ", " allowed_values)

/-- The element loop of `Config.get_enum_list`'s conversion closure, pset.py
lines 282-297, over the already-stringified elements, carrying `result` and
`seen` and counting the two kinds of warnings (duplicate at lines 286-289,
invalid value at lines 293-296).  Both branches call `self.warn`, which with
`warn_fatal` set (true while `Config.get` tries the strict default source,
line 332 together with line 336) raises `AssertionError` (lines 164-167)
instead of printing, so under `warnFatal` the loop aborts at the first
duplicate or invalid element.  Python's `seen` is a set; only membership
matters, so it is modelled as a list extended at the head. -/
def enumListLoop (allowed_values : List String) (uniq : Bool)
    (warnFatal : Bool) :
    List String → List String → List String → Nat → Nat →
    Except PyExn (List String × Nat × Nat)
| [], result, _seen, dupWarns, invalidWarns =>
    Except.ok (result, dupWarns, invalidWarns)
| val :: rest, result, seen, dupWarns, invalidWarns =>
    if uniq && seen.contains val then
      if warnFatal then Except.error PyExn.assertionError
      else
        enumListLoop allowed_values uniq warnFatal rest result seen
          (dupWarns + 1) invalidWarns
    else if allowed_values.contains val then
      enumListLoop allowed_values uniq warnFatal rest (result ++ [val])
        (val :: seen) dupWarns invalidWarns
    else
      if warnFatal then Except.error PyExn.assertionError
      else
        enumListLoop allowed_values uniq warnFatal rest result seen dupWarns
          (invalidWarns + 1)

/-- The conversion closure of `Config.get_enum_list`, pset.py lines 279-297,
run with the `warn_fatal` flag that `Config.get` sets for the source being
tried: a non-list raw value raises `ConfigConversionError("must be list")`
(the inner error, which `get` catches at line 340); a list is processed
elementwise with `str(val)` applied to each element, and a fatal warning
escapes as `AssertionError` (the outer error, which `get` does not catch).
On success it returns the result list with the duplicate- and
invalid-warning counts. -/
def get_enum_list_convert (allowed_values : List String) (uniq : Bool)
    (warnFatal : Bool) (val : PyVal) :
    Except PyExn (Except ConfigConversionError (List String × Nat × Nat)) :=
  match val with
  | PyVal.list xs =>
      match enumListLoop allowed_values uniq warnFatal
          (xs.map pyScalarStr) [] [] 0 0 with
      | Except.error e => Except.error e
      | Except.ok r => Except.ok (Except.ok r)
  | _ => Except.ok (Except.error "must be list")

/-- Written from the claim's words, for comparison with `enumListLoop`: the
subsequence of first occurrences of allowed values, in input order, skipping
values already seen. -/
def specFirstOccurrences (allowed_values : List String) :
    List String → List String → List String
| _seen, [] => []
| seen, v :: rest =>
    if seen.contains v then specFirstOccurrences allowed_values seen rest
    else if allowed_values.contains v then
      v :: specFirstOccurrences allowed_values (v :: seen) rest
    else specFirstOccurrences allowed_values seen rest

/-! ## Config-file discovery (`Config.read_user_config`,
pset.py lines 100-119) -/

/-- Constant `CONFIG_ROOTS` from pset.py line 18. -/
def CONFIG_ROOTS : List String := [".pset", "pset"]

/-- Constant `JSON_EXTENSIONS` from pset.py line 21. -/
def JSON_EXTENSIONS : List String := ["json"]

/-- Constant `YAML_EXTENSIONS` from pset.py line 24. -/
def YAML_EXTENSIONS : List String := ["yml", "yaml"]

/-- Constant `CONFIG_EXTENSIONS` from pset.py line 27. -/
def CONFIG_EXTENSIONS : List String := JSON_EXTENSIONS ++ YAML_EXTENSIONS

/-- Lexicographic order on character lists by code point, Python's string
comparison. -/
def charListLe : List Char → List Char → Bool
| [], _ => true
| _ :: _, [] => false
| a :: as, b :: bs => if a = b then charListLe as bs else decide (a < b)

/-- Python string `<=` by code points. -/
def strLe (a b : String) : Bool := charListLe a.toList b.toList

/-- Insertion step of a stable ascending sort. -/
def sortedInsert (f : String) : List String → List String
| [] => [f]
| g :: rest => if strLe f g then f :: g :: rest else g :: sortedInsert f rest

/-- Python `sorted` on a list of strings (insertion sort; stable and
ascending, which is all `read_user_config` relies on). -/
def pySorted : List String → List String
| [] => []
| f :: rest => sortedInsert f (pySorted rest)

/-- The inner double loop of `read_user_config`, pset.py lines 109-114: for
one directory entry `filename`, every `(root, ext)` pair whose candidate name
`root + "." + ext` equals it contributes one load of that file.  The six
candidate names are pairwise distinct, so this yields at most one copy. -/
def dirMatches (filename : String) : List String :=
  CONFIG_ROOTS.flatMap (fun root =>
    CONFIG_EXTENSIONS.filterMap (fun ext =>
      if filename = root ++ "." ++ ext then some filename else Option.none))

/-- The per-directory scan of `read_user_config`, pset.py lines 107-114:
`sorted(os.listdir(cur_dir))` followed by the filename loop.  Every matching
filename is appended to `self.user_configs` — the loop has no break. -/
def scanDir (filenames : List String) : List String :=
  (pySorted filenames).flatMap dirMatches

/-- The directory walk of `Config.read_user_config`, pset.py lines 100-119,
over the directory listings from the current working directory upward to the
filesystem root (`dirs` is that list, nearest directory first, as produced by
the `while` loop with its `path_is_root` stop condition).  Paths are
abstracted to the matched filenames, in load order. -/
def read_user_config (dirs : List (List String)) : List String :=
  dirs.flatMap scanDir

/-- Decides whether a filename is one of the six discovery candidates
`root + "." + ext`. -/
def isCandidateName (filename : String) : Bool :=
  CONFIG_ROOTS.any (fun root =>
    CONFIG_EXTENSIONS.any (fun ext => filename = root ++ "." ++ ext))

/-! ## Helper lemmas -/

/-- Every run of the command-line parsing loop ends in an exception: a string
argument either recurses or raises (flush errors, or the no-key warning whose
`self.warn` call reads the deleted `warn_fatal` attribute), and the appended
`None` sentinel always raises in `arg.startswith`. -/
theorem runCL_always_errors :
    ∀ (args : List String) (key : Option String) (values : List String)
      (cl : CLDict), ∃ e : PyExn, runCL key values cl args = Except.error e := by
  intro args
  induction args with
  | nil => intro key values cl; exact ⟨PyExn.attributeError, rfl⟩
  | cons arg rest ih =>
      intro key values cl
      cases hs : startsWithDashDash arg with
      | true =>
          cases hf : flushValues key values cl with
          | error e => exact ⟨e, by simp [runCL, hs, hf]⟩
          | ok cl2 =>
              obtain ⟨e, he⟩ := ih (some (dropTwoChars arg)) [] cl2
              exact ⟨e, by simp [runCL, hs, hf, he]⟩
      | false =>
          cases key with
          | none => exact ⟨PyExn.attributeError, by simp [runCL, hs]⟩
          | some k =>
              obtain ⟨e, he⟩ := ih (some k) (values ++ [arg]) cl
              exact ⟨e, by simp [runCL, hs, he]⟩

/-- When no source contains the key, the walk of `Config.get` visits every
source and falls off the end of the loop, returning `None`. -/
theorem getLoop_absent {α : Type} (key : String)
    (convert : PyVal → Except ConfigConversionError α) :
    ∀ srcs : List ConfigMap,
      (∀ cfg ∈ srcs, lookupKey key cfg = Option.none) →
      getLoop key convert srcs = Except.ok Option.none := by
  intro srcs
  induction srcs with
  | nil => intro _; rfl
  | cons cfg rest ih =>
      intro h
      have h1 : lookupKey key cfg = Option.none := h cfg (by simp)
      simp only [getLoop, h1]
      exact ih (fun c hc => h c (by simp [hc]))

/-- The six candidate names are pairwise distinct, so the double loop over
roots and extensions contributes one copy of a filename exactly when it is a
candidate name. -/
theorem dirMatches_eq (f : String) :
    dirMatches f = if isCandidateName f then [f] else [] := by
  by_cases h1 : f = ".pset.json" <;> by_cases h2 : f = ".pset.yml" <;>
    by_cases h3 : f = ".pset.yaml" <;> by_cases h4 : f = "pset.json" <;>
    by_cases h5 : f = "pset.yml" <;> by_cases h6 : f = "pset.yaml" <;>
    simp_all [dirMatches, isCandidateName, CONFIG_ROOTS, CONFIG_EXTENSIONS,
      JSON_EXTENSIONS, YAML_EXTENSIONS]

/-- Binding a conditional singleton over a list is filtering it. -/
theorem flatMap_ite_singleton (p : String → Bool) :
    ∀ l : List String,
      l.flatMap (fun f => if p f then [f] else []) = l.filter p := by
  intro l
  induction l with
  | nil => rfl
  | cons a l ih =>
      by_cases h : p a <;> simp [List.filter_cons, h, ih]

/-- Invariant of the `get_enum_list` element loop with `unique=True` in a
non-fatal warning context (`warn_fatal` false, any source but the default):
with `seen` holding exactly the members of `result`, all of them allowed, and
`result` duplicate-free, the loop returns normally, extends `result` by the
unseen first occurrences of allowed values in order, keeps it duplicate-free,
and counts one duplicate warning per element already seen. -/
theorem enumListLoop_unique_aux (allowed_values : List String) :
    ∀ (vs result seen : List String) (d i : Nat),
      (∀ x, x ∈ seen ↔ x ∈ result) →
      (∀ x ∈ seen, x ∈ allowed_values) →
      result.Nodup →
      ∃ (r : List String) (dups invs : Nat),
        enumListLoop allowed_values true false vs result seen d i =
            Except.ok (r, dups, invs) ∧
          r = result ++ specFirstOccurrences allowed_values seen vs ∧
          r.Nodup ∧
          dups + (specFirstOccurrences allowed_values seen vs).length =
            d + (vs.filter (fun v => allowed_values.contains v)).length := by
  intro vs
  induction vs with
  | nil =>
      intro result seen d i hseen hsub hnodup
      exact ⟨result, d, i, rfl, by simp [specFirstOccurrences], hnodup,
        by simp [specFirstOccurrences]⟩
  | cons v rest ih =>
      intro result seen d i hseen hsub hnodup
      cases hv1 : seen.contains v with
      | true =>
          have hv : v ∈ seen := by simpa using hv1
          have hva : v ∈ allowed_values := hsub v hv
          have hva1 : allowed_values.contains v = true := by simpa using hva
          simp only [enumListLoop, specFirstOccurrences, List.filter_cons, hv1,
            hva1, Bool.true_and, Bool.false_eq_true, if_true, if_false,
            List.length_cons]
          obtain ⟨r, dups, invs, h0, h1, h2, h3⟩ :=
            ih result seen (d + 1) i hseen hsub hnodup
          exact ⟨r, dups, invs, h0, h1, h2, by omega⟩
      | false =>
          have hv : v ∉ seen := by simpa using hv1
          cases hva1 : allowed_values.contains v with
          | true =>
              simp only [enumListLoop, specFirstOccurrences, List.filter_cons,
                hv1, hva1, Bool.true_and, Bool.false_eq_true, if_false, if_true,
                List.length_cons]
              have hvr : v ∉ result := fun hr => hv ((hseen v).mpr hr)
              obtain ⟨r, dups, invs, h0, h1, h2, h3⟩ :=
                ih (result ++ [v]) (v :: seen) d i
                  (by intro x; simp [hseen x, or_comm])
                  (by intro x hx
                      rcases List.mem_cons.mp hx with h | h
                      · subst h; simpa using hva1
                      · exact hsub x h)
                  (by simp [List.nodup_append, hnodup, hvr])
              refine ⟨r, dups, invs, h0, ?_, h2, by omega⟩
              rw [h1, List.append_assoc]
              rfl
          | false =>
              simp only [enumListLoop, specFirstOccurrences, List.filter_cons,
                hv1, hva1, Bool.true_and, Bool.false_eq_true, if_false]
              exact ih result seen d (i + 1) hseen hsub hnodup

/-! ## Claim theorems -/

/-- C1, counterexample: on the argument list `--x a=1 b=2 --y`, the flush
triggered by the second flag enters the map branch, whose mis-sliced regex
groups raise `ValueError` — not the `AttributeError` the claim asserts for
every argument list. -/
theorem cmdline_map_flush_not_attributeerror :
    read_command_line_arguments ["--x", "a=1", "b=2", "--y"] =
        Except.error PyExn.valueError ∧
      PyExn.valueError ≠ PyExn.attributeError :=
  ⟨by rfl, by decide⟩

/-- C1, amended: for every list of command-line arguments,
`read_command_line_arguments` raises some exception before completing — the
`AttributeError` from `arg.startswith` on the `None` sentinel when execution
gets that far, but possibly an earlier `ValueError` from the map-branch
unpacking or an `AttributeError` from the deleted `warn_fatal` attribute — so
`Config.__init__`, which calls it last, never returns a constructed
`Config`. -/
theorem cmdline_arguments_always_raise (args : List String) :
    ∃ e : PyExn, read_command_line_arguments args = Except.error e :=
  runCL_always_errors args Option.none [] []

/-- C2, code bug: the validation loop of `load_config_file` iterates over the
VALUES of the mapping, not its keys.  On the mapping with the single
schema-valid key `font-size` and value `"10"`, the claim says the mapping is
returned unchanged with zero warnings; the code instead warns about the
"unknown key" `10` and then raises `KeyError` executing `del config["10"]`. -/
theorem load_config_file_values_keyerror :
    load_config_validate ["font-size", "problems"] false
        [("font-size", PyVal.scalar (PyScalar.str "10"))] =
      Except.error PyExn.keyError := by rfl

/-- C3, code bug: a flush of the key `foo` with the accumulated no-equals run
`bar baz quux` stores nothing — the map branch of lines 214-220 has no `else`,
so the documented list binding `foo = ["bar", "baz", "quux"]` never happens
and the dictionary is returned unchanged. -/
theorem cmdline_list_run_dropped :
    flushValues (some "foo") ["bar", "baz", "quux"] [] = Except.ok [] := by rfl

/-- C4, code bug: a flush of the key `tags` with the all-equals run
`a=1 b=2` enters the map branch, where `groups()[1:3]` keeps only the second
regex group and the two-variable unpacking raises `ValueError`, instead of
binding the documented mapping. -/
theorem cmdline_map_run_valueerror :
    flushValues (some "tags") ["a=1", "b=2"] [] =
      Except.error PyExn.valueError := by rfl

/-- C5, code bug: the falsy branch of `get_boolean` UPPER-cases the
stringified value before comparing it with the lower-case words, so `"no"`
raises `ConfigConversionError` instead of converting to false; of the falsy
words only `"0"` (unchanged by upper-casing) still converts, while the truthy
branch works as documented. -/
theorem get_boolean_falsy_conversion_error :
    get_boolean_convert (PyVal.scalar (PyScalar.str "no")) =
        Except.error "must be y/n, yes/no, true/false, on/off, or 0/1" ∧
      get_boolean_convert (PyVal.scalar (PyScalar.str "yes")) =
        Except.ok (some true) ∧
      get_boolean_convert (PyVal.scalar (PyScalar.str "0")) =
        Except.ok (some false) := ⟨by rfl, by rfl, by rfl⟩

/-- C6, code bug: when the command-line value of `fancy-math` fails boolean
coercion, the handler in `Config.get` evaluates `e.message`, an attribute
Python 3 exceptions do not have, so an `AttributeError` escapes `get` instead
of a warning being recorded and the default source's `yes` being returned. -/
theorem get_warning_path_attributeerror :
    ConfigState.get
        ⟨[("fancy-math", PyVal.scalar (PyScalar.str "zzz"))], [],
          [("fancy-math", PyVal.scalar (PyScalar.str "yes"))]⟩
        "fancy-math" get_boolean_convert =
      Except.error PyExn.attributeError := by rfl

/-- C7, code bug: with the command line setting `font-size` to the
non-allowed `13` and a discovered file setting it to `11`, the first visited
source containing the key whose value coerces successfully is the discovered
file, so the claim requires `get` to return `11`; the code instead raises
`AttributeError` through the `e.message` access when the command-line value
fails coercion, so the lookup never falls through. -/
theorem get_fallthrough_attributeerror :
    ConfigState.get
        ⟨[("font-size", PyVal.scalar (PyScalar.str "13"))],
          [[("font-size", PyVal.scalar (PyScalar.str "11"))]],
          [("font-size", PyVal.scalar (PyScalar.str "10"))]⟩
        "font-size" (get_enum_convert ["10", "11", "12"]) =
      Except.error PyExn.attributeError := by rfl

/-- C8, counterexample: a directory containing both `pset.json` and
`pset.yml` contributes BOTH files to the discovered sources — the filename
loop of `read_user_config` has no break — refuting the claim that at most one
configuration file is recorded per directory. -/
theorem discovery_loads_both_files :
    read_user_config [["pset.json", "pset.yml"]] = ["pset.json", "pset.yml"] ∧
      1 < (read_user_config [["pset.json", "pset.yml"]]).length :=
  ⟨by rfl, by decide⟩

/-- C8, amended: config-file discovery walks from the current working
directory upward and, in each directory, records EVERY file whose name is one
of the six candidates built from the fixed base names and extensions, in
lexicographically sorted filename order — not only the first candidate in a
fixed priority order. -/
theorem discovery_loads_every_sorted_match (dirs : List (List String)) :
    read_user_config dirs =
      dirs.flatMap (fun fs => (pySorted fs).filter (fun f => isCandidateName f)) := by
  unfold read_user_config
  have h : scanDir = fun fs =>
      (pySorted fs).filter (fun f => isCandidateName f) := by
    funext fs
    unfold scanDir
    rw [show dirMatches = fun f => if isCandidateName f then [f] else []
      from funext dirMatches_eq]
    exact flatMap_ite_singleton _ _
  rw [h]

/-- C9, confirmed: for every key absent from the command-line source, from
every discovered source and from the default source, and for every coercion,
`Config.get` walks all sources without attempting a conversion and returns
Python `None` without raising. -/
theorem get_absent_key_returns_none {α : Type} (c : ConfigState) (key : String)
    (convert : PyVal → Except ConfigConversionError α)
    (hcl : lookupKey key c.cl_config = Option.none)
    (huser : ∀ cfg ∈ c.user_configs, lookupKey key cfg = Option.none)
    (hdef : lookupKey key c.default_config = Option.none) :
    c.get key convert = Except.ok Option.none := by
  unfold ConfigState.get
  apply getLoop_absent
  intro cfg hcfg
  rcases List.mem_cons.mp hcfg with h | h
  · subst h; exact hcl
  · rcases List.mem_append.mp h with h2 | h2
    · exact huser cfg h2
    · rw [List.mem_singleton.mp h2]; exact hdef

/-- Witness for C9 at a concrete configuration: the key `missing` occurs in
no source and the boolean getter returns `None`. -/
theorem get_absent_key_returns_none_witness :
    ConfigState.get
        ⟨[("a", PyVal.scalar (PyScalar.str "x"))],
          [[("b", PyVal.scalar (PyScalar.str "y"))]],
          [("c", PyVal.scalar (PyScalar.str "z"))]⟩
        "missing" get_boolean_convert = Except.ok Option.none :=
  get_absent_key_returns_none _ "missing" get_boolean_convert (by rfl)
    (by intro cfg hcfg
        have h : cfg = [("b", PyVal.scalar (PyScalar.str "y"))] := by
          simpa using hcfg
        rw [h]
        rfl)
    (by rfl)

/-- C10, counterexample: when the list value comes from the strict default
source, `Config.get` runs the conversion closure with `warn_fatal` set (line
332), so on the list `["a", "a"]` with allowed set `{a, b}` the duplicate
warning for the second `a` raises `AssertionError` — no duplicate-free list
is returned and no warning is recorded, refuting the claim for that raw list
value. -/
theorem get_enum_list_strict_duplicate_asserts :
    get_enum_list_convert ["a", "b"] true true
        (PyVal.list [PyScalar.str "a", PyScalar.str "a"]) =
      Except.error PyExn.assertionError := by rfl

/-- C10, amended: for every raw list value converted in a non-fatal warning
context (`warn_fatal` false, any source except the strict default config),
`get_enum_list` with `unique=True` returns a duplicate-free list equal to
the ordered first occurrences of the allowed stringified elements, and the
number of duplicate warnings plus the result length equals the number of
allowed elements — one warning per duplicate occurrence of an accepted
value.  Under the strict default source, the first duplicate or invalid
element instead raises `AssertionError` from the fatal warning. -/
theorem get_enum_list_unique_spec (allowed_values : List String)
    (xs : List PyScalar) :
    ∃ (r : List String) (d i : Nat),
      get_enum_list_convert allowed_values true false (PyVal.list xs) =
          Except.ok (Except.ok (r, d, i)) ∧
        r.Nodup ∧
        r = specFirstOccurrences allowed_values [] (xs.map pyScalarStr) ∧
        d + r.length =
          ((xs.map pyScalarStr).filter
            (fun v => allowed_values.contains v)).length := by
  obtain ⟨r, dups, invs, h0, h1, h2, h3⟩ := enumListLoop_unique_aux
    allowed_values (xs.map pyScalarStr) [] [] 0 0 (by simp) (by simp)
    List.nodup_nil
  refine ⟨r, dups, invs, ?_, h2, ?_, ?_⟩
  · simp [get_enum_list_convert, h0]
  · simpa using h1
  · have h4 : r.length =
        (specFirstOccurrences allowed_values [] (xs.map pyScalarStr)).length := by
      rw [h1]; simp
    rw [h4]
    simpa using h3
